import Mathlib

/-!
Shallow embedding of the M5Siv3D frame loop, input snapshot, shapes,
color conversion, attitude estimator, image loading and GUI checkbox,
translated from the C++ headers under src/M5Siv3D, together with
theorems checking the specified properties.

Machine integers are modelled as Nat or Int with explicit reduction
modulo 2^w where the C++ code relies on wraparound (uint32_t time
arithmetic, uint64_t frame counter, int32_t narrowing).  The float
members (delta time, averaged frame time, filter angles, triangle
areas) are modelled over the rationals.
-/

namespace M5Siv3D

/-! ### Color (src/M5Siv3D/Color.h)

Channels r, g, b are uint8_t; RGB565 values are uint16_t.  All
arithmetic is on Nat; the masks of the source keep every computed value
in range, so no extra truncation is needed. -/

structure Color where
  r : Nat
  g : Nat
  b : Nat
  deriving Repr, DecidableEq

/-- Constructor Color(uint16_t rgb565) of Color.h lines 15-24: 5/6/5
extraction with low-bit replication. -/
def colorOfRGB565 (v : Nat) : Color :=
  let r0 : Nat := (v >>> 8) &&& 0xF8
  let g0 : Nat := (v >>> 3) &&& 0xFC
  let b0 : Nat := (v <<< 3) &&& 0xF8
  { r := r0 ||| (r0 >>> 5)
    g := g0 ||| (g0 >>> 6)
    b := b0 ||| (b0 >>> 5) }

/-- Method toRGB565 of Color.h lines 34-38. -/
def Color.toRGB565 (c : Color) : Nat :=
  ((c.r &&& 0xF8) <<< 8) ||| ((c.g &&& 0xFC) <<< 3) ||| (c.b >>> 3)

/-! ### Touch input (src/M5Siv3D/Input.h, class TouchInput)

TouchState mirrors the private struct TouchState (int32_t x, y and a
bool pressed); TouchInput keeps the two retained generations
m_currentTouchState / m_previousTouchState. -/

/-- Math::Vec2i of Math.h: a pair of int32_t coordinates. -/
structure Vec2i where
  x : Int
  y : Int
  deriving Repr, DecidableEq

structure TouchState where
  x : Int
  y : Int
  pressed : Bool
  deriving Repr, DecidableEq

/-- Default-constructed TouchState: x = 0, y = 0, pressed = false. -/
def TouchState.init : TouchState := { x := 0, y := 0, pressed := false }

structure TouchInput where
  current : TouchState
  previous : TouchState
  deriving Repr, DecidableEq

/-- Default-constructed TouchInput singleton state. -/
def TouchInput.init : TouchInput := { current := .init, previous := .init }

/-- Method TouchInput::update (Input.h lines 129-139).  The hardware
sample is some s when M5.Touch.isEnabled() holds (s being the detail
latched from M5.Touch.getDetail()) and none when touch is disabled. -/
def TouchInput.update (t : TouchInput) (hw : Option TouchState) : TouchInput :=
  { previous := t.current
    current :=
      match hw with
      | some s => s
      | none => t.current }

/-- Method TouchInput::pos (Input.h lines 142-145). -/
def TouchInput.pos (t : TouchInput) : Vec2i :=
  { x := t.current.x, y := t.current.y }

/-- Method TouchInput::pressed (Input.h lines 148-151). -/
def TouchInput.pressed (t : TouchInput) : Bool := t.current.pressed

/-- Method TouchInput::down (Input.h lines 154-157). -/
def TouchInput.down (t : TouchInput) : Bool :=
  t.current.pressed && !t.previous.pressed

/-- Method TouchInput.up (Input.h lines 160-163). -/
def TouchInput.up (t : TouchInput) : Bool :=
  !t.current.pressed && t.previous.pressed

/-! ### Shapes (src/M5Siv3D/Shapes.h)

Every touch-dependent query of a shape reads the ambient
Input::Touch singleton; here that singleton is passed explicitly as a
TouchInput argument. -/

structure Circle where
  m_x : Int
  m_y : Int
  m_r : Int
  deriving Repr, DecidableEq

/-- Method Circle::contains (Shapes.h lines 54-59). -/
def Circle.contains (c : Circle) (p : Vec2i) : Bool :=
  let dx := p.x - c.m_x
  let dy := p.y - c.m_y
  decide (dx * dx + dy * dy ≤ c.m_r * c.m_r)

/-- Method Circle::touchOver (Shapes.h lines 62-65). -/
def Circle.touchOver (c : Circle) (t : TouchInput) : Bool :=
  c.contains t.pos

/-- Method Circle::touched (Shapes.h lines 68-71). -/
def Circle.touched (c : Circle) (t : TouchInput) : Bool :=
  t.down && c.contains t.pos

/-- Method Circle::released (Shapes.h lines 74-77). -/
def Circle.released (c : Circle) (t : TouchInput) : Bool :=
  t.up && c.contains t.pos

/-- Method Circle::pressed (Shapes.h lines 80-83). -/
def Circle.pressed (c : Circle) (t : TouchInput) : Bool :=
  t.pressed && c.contains t.pos

structure Rect where
  m_x : Int
  m_y : Int
  m_width : Int
  m_height : Int
  deriving Repr, DecidableEq

/-- Method Rect::contains (Shapes.h lines 152-156). -/
def Rect.contains (r : Rect) (p : Vec2i) : Bool :=
  decide (p.x ≥ r.m_x) && decide (p.x < r.m_x + r.m_width) &&
  decide (p.y ≥ r.m_y) && decide (p.y < r.m_y + r.m_height)

/-- Method Rect::touchOver (Shapes.h lines 159-162). -/
def Rect.touchOver (r : Rect) (t : TouchInput) : Bool :=
  r.contains t.pos

/-- Method Rect::touched (Shapes.h lines 165-168). -/
def Rect.touched (r : Rect) (t : TouchInput) : Bool :=
  t.down && r.contains t.pos

/-- Method Rect::released (Shapes.h lines 171-174). -/
def Rect.released (r : Rect) (t : TouchInput) : Bool :=
  t.up && r.contains t.pos

/-- Method Rect::pressed (Shapes.h lines 177-180). -/
def Rect.pressed (r : Rect) (t : TouchInput) : Bool :=
  t.pressed && r.contains t.pos

structure Triangle where
  m_x1 : Int
  m_y1 : Int
  m_x2 : Int
  m_y2 : Int
  m_x3 : Int
  m_y3 : Int
  deriving Repr, DecidableEq

/-- Helper lambda area of Triangle::contains (Shapes.h lines 223-225),
with the float arithmetic carried out over the rationals. -/
def triArea (x1 y1 x2 y2 x3 y3 : Int) : ℚ :=
  |((x1 * (y2 - y3) + x2 * (y3 - y1) + x3 * (y1 - y2) : Int) : ℚ) / 2|

/-- Method Triangle::contains (Shapes.h lines 220-237): area
decomposition with the fixed absolute tolerance 0.1. -/
def Triangle.contains (tr : Triangle) (p : Vec2i) : Bool :=
  let A := triArea tr.m_x1 tr.m_y1 tr.m_x2 tr.m_y2 tr.m_x3 tr.m_y3
  let A1 := triArea p.x p.y tr.m_x2 tr.m_y2 tr.m_x3 tr.m_y3
  let A2 := triArea tr.m_x1 tr.m_y1 p.x p.y tr.m_x3 tr.m_y3
  let A3 := triArea tr.m_x1 tr.m_y1 tr.m_x2 tr.m_y2 p.x p.y
  decide (|A - (A1 + A2 + A3)| < 1 / 10)

/-- Method Triangle::touchOver (Shapes.h lines 240-243). -/
def Triangle.touchOver (tr : Triangle) (t : TouchInput) : Bool :=
  tr.contains t.pos

/-- Method Triangle::touched (Shapes.h lines 246-249). -/
def Triangle.touched (tr : Triangle) (t : TouchInput) : Bool :=
  t.down && tr.contains t.pos

/-- Method Triangle::released (Shapes.h lines 252-255). -/
def Triangle.released (tr : Triangle) (t : TouchInput) : Bool :=
  t.up && tr.contains t.pos

/-- Method Triangle::pressed (Shapes.h lines 258-261). -/
def Triangle.pressed (tr : Triangle) (t : TouchInput) : Bool :=
  t.pressed && tr.contains t.pos

/-- Touch snapshots of the C5 scenario: three refreshes fed with the
samples (pressed=false), (pressed=true,5,5), (pressed=true,5,5). -/
def scenarioTouch1 : TouchInput :=
  TouchInput.init.update (some { x := 0, y := 0, pressed := false })

def scenarioTouch2 : TouchInput :=
  scenarioTouch1.update (some { x := 5, y := 5, pressed := true })

def scenarioTouch3 : TouchInput :=
  scenarioTouch2.update (some { x := 5, y := 5, pressed := true })

/-- Touch snapshots demonstrating that released() tests the current
(release-moment) position: press at (100,100), drag to (5,5), release. -/
def dragTouch1 : TouchInput :=
  TouchInput.init.update (some { x := 100, y := 100, pressed := true })

def dragTouch2 : TouchInput :=
  dragTouch1.update (some { x := 5, y := 5, pressed := true })

def dragTouch3 : TouchInput :=
  dragTouch2.update (some { x := 5, y := 5, pressed := false })

/-! ### Frame controller (src/M5Siv3D/System.h)

State mirrors the System singleton members.  millis() is an external
wall-clock read; System::update reads it three times (line 64, line 161
inside updateTime, line 73), so the embedding passes the three readings
t1, t2, t3 explicitly.  The canvas blit, input refresh, delay and
canvas clear are hardware side effects, recorded as an ordered event
trace.  uint32_t subtraction wraps modulo 2^32. -/

def FRAME_INTERVAL : Nat := 16

/-- uint32_t subtraction a - b (wraparound modulo 2^32). -/
def sub32 (a b : Nat) : Nat := (a % 2 ^ 32 + 2 ^ 32 - b % 2 ^ 32) % 2 ^ 32

/-- Reinterpretation of a uint32_t bit pattern as int32_t. -/
def toInt32 (n : Nat) : Int :=
  if n % 2 ^ 32 < 2 ^ 31 then (n % 2 ^ 32 : Int) else (n % 2 ^ 32 : Int) - 2 ^ 32

structure SysState where
  lastDrawTime : Nat
  backgroundColor : Color
  m_deltaTime : ℚ
  m_averageFrameTime : ℚ
  m_frameCount : Nat
  m_previousTime : Nat
  deriving Repr, DecidableEq

/-- Hardware side effects of one System::update call, in program order. -/
inductive Event where
  | blit
  | timing
  | sleep (ms : Int)
  | refresh
  | clear (rgb565 : Nat)
  deriving Repr, DecidableEq

/-- Method System::updateTime (System.h lines 159-169); t2 is the
millis() reading taken at line 161. -/
def updateTime (s : SysState) (t2 : Nat) : SysState :=
  { s with
    m_deltaTime := (sub32 t2 s.m_previousTime : ℚ) / 1000
    m_averageFrameTime :=
      s.m_averageFrameTime * (9 / 10) + (sub32 t2 s.m_previousTime : ℚ) * (1 / 10)
    m_previousTime := t2 % 2 ^ 32
    m_frameCount := (s.m_frameCount + 1) % 2 ^ 64 }

/-- Method System::update (System.h lines 62-83).  Returns the new
state, the ordered trace of hardware effects, and the bool result. -/
def systemUpdate (s : SysState) (t1 t2 t3 : Nat) : SysState × List Event × Bool :=
  let elapsedTime := sub32 t1 s.lastDrawTime
  if elapsedTime ≥ FRAME_INTERVAL then
    let s1 := updateTime s t2
    let s2 := { s1 with lastDrawTime := t1 % 2 ^ 32 }
    let remaining : Int := toInt32 (sub32 FRAME_INTERVAL (sub32 t3 t1))
    let sleepTrace : List Event := if remaining > 0 then [.sleep remaining] else []
    (s2,
     [.blit, .timing] ++ sleepTrace ++ [.refresh, .clear s.backgroundColor.toRGB565],
     true)
  else
    (s, [], true)

/-! ### Multi-tick runs and the refresh/clear alternation (C2) -/

def isRefresh : Event → Bool
  | .refresh => true
  | _ => false

def isClear : Event → Bool
  | .clear _ => true
  | _ => false

/-- Number of input-snapshot refreshes in a trace. -/
def refreshesIn (l : List Event) : Nat := l.countP isRefresh

/-- Number of canvas-clear events in a trace. -/
def clearsIn (l : List Event) : Nat := l.countP isClear

/-- Scanner for the refresh/clear alternation: the Bool state records
whether a refresh is pending (seen and not yet followed by a clear);
the result is none when the trace has two refreshes with no clear in
between, or a clear with no preceding refresh.  altScan false l = some
false therefore says that refreshes and clears strictly alternate
starting with a refresh and ending balanced — in particular at most one
refresh occurs between two consecutive clear events of l. -/
def altScan : Bool → List Event → Option Bool
  | b, [] => some b
  | b, e :: rest =>
    if isRefresh e then (if b then none else altScan true rest)
    else if isClear e then (if b then altScan false rest else none)
    else altScan b rest

/-- Cooperative loop: successive update() calls, each with its three
millis() readings; returns the final state and the trace of each call. -/
def runTicks (s : SysState) (ts : List (Nat × Nat × Nat)) : SysState × List (List Event) :=
  match ts with
  | [] => (s, [])
  | t :: rest =>
    let r := systemUpdate s t.1 t.2.1 t.2.2
    let rr := runTicks r.1 rest
    (rr.1, r.2.1 :: rr.2)

/-- Initial state of the C2 scenario: the previous tick committed at
time 0, with the default member values of the System singleton. -/
def scenarioSys : SysState :=
  { lastDrawTime := 0, backgroundColor := { r := 0, g := 0, b := 0 },
    m_deltaTime := 0, m_averageFrameTime := 16,
    m_frameCount := 0, m_previousTime := 0 }

/-! ### Attitude estimator (src/M5Siv3D/Input.h, class IMU)

The accelerometer-derived angles use atan2f/sqrtf of the raw sample
(Input.h lines 58-60); those trigonometric evaluations belong to the
excluded math layer, so the embedding takes the three
accelerometer-derived angles as already-computed inputs, alongside the
raw gyro rates.  Float arithmetic is carried out over ℚ. -/

structure EulerAngles where
  roll : ℚ
  pitch : ℚ
  yaw : ℚ
  deriving Repr, DecidableEq

structure Vec3q where
  x : ℚ
  y : ℚ
  z : ℚ
  deriving Repr, DecidableEq

/-- Method IMU::complementaryFilter (Input.h lines 106-110). -/
def complementaryFilter (accelAngle gyroRate deltaTime currentAngle alpha gyroScale : ℚ) : ℚ :=
  let gyroAngle := currentAngle + gyroRate * gyroScale * deltaTime
  alpha * gyroAngle + (1 - alpha) * accelAngle

/-- Method IMU::updateAttitude (Input.h lines 52-66): the filter applied
per axis, with gyro.x feeding roll, gyro.y feeding pitch and gyro.z
feeding yaw. -/
def updateAttitude (cur accelAngles : EulerAngles) (gyro : Vec3q)
    (deltaTime alpha gyroScale : ℚ) : EulerAngles :=
  { roll := complementaryFilter accelAngles.roll gyro.x deltaTime cur.roll alpha gyroScale
    pitch := complementaryFilter accelAngles.pitch gyro.y deltaTime cur.pitch alpha gyroScale
    yaw := complementaryFilter accelAngles.yaw gyro.z deltaTime cur.yaw alpha gyroScale }

/-! ### Image (src/M5Siv3D/Image.h)

The sprite canvas, the Base64 decoder and the PNG decoder are external
collaborators; the embedding keeps their outcomes as explicit inputs
(the decoded byte buffer and the success of createSprite / drawPng) and
tracks the observable object state. -/

structure ImageState where
  hasCanvas : Bool
  hasSprite : Bool
  m_valid : Bool
  m_width : Int
  m_height : Int
  deriving Repr, DecidableEq

/-- Method Image::isEmpty (Image.h line 116). -/
def ImageState.isEmpty (s : ImageState) : Bool := !s.m_valid || !s.hasCanvas

/-- External outcomes consumed by one loadBase64 call: the
decode_base64_length result, the decode_base64 output buffer (its
length is actualLen), and the createSprite / drawPng outcomes. -/
structure LoadEnv where
  decodedLen : Nat
  bytes : List Nat
  spriteOk : Bool
  drawOk : Bool
  deriving Repr, DecidableEq

def byteAt (l : List Nat) (i : Nat) : Nat := l.getD i 0

/-- Big-endian 32-bit field of the PNG IHDR chunk at offset i,
reinterpreted as int32_t (Image.h lines 58-59). -/
def pngField (l : List Nat) (i : Nat) : Int :=
  toInt32 ((byteAt l i <<< 24) ||| (byteAt l (i + 1) <<< 16) |||
           (byteAt l (i + 2) <<< 8) ||| byteAt l (i + 3))

/-- Method Image::loadBase64 (Image.h lines 25-83): returns the new
object state and the bool result.  The serial prints are not modelled. -/
def loadBase64 (s : ImageState) (env : LoadEnv) : ImageState × Bool :=
  if !s.hasCanvas then (s, false)
  else
    let s1 := { s with hasSprite := false, m_valid := false }
    if env.decodedLen = 0 then (s1, false)
    else if env.bytes.length = 0 then (s1, false)
    else if env.bytes.length < 24 ∨ byteAt env.bytes 0 ≠ 0x89 ∨
            byteAt env.bytes 1 ≠ 0x50 ∨ byteAt env.bytes 2 ≠ 0x4E ∨
            byteAt env.bytes 3 ≠ 0x47 then (s1, false)
    else
      let s2 := { s1 with m_width := pngField env.bytes 16
                          m_height := pngField env.bytes 20 }
      if !env.spriteOk then (s2, false)
      else
        let s3 := { s2 with hasSprite := true }
        if !env.drawOk then (s3, false)
        else ({ s3 with m_valid := true }, true)

/-- Image state after a successful create(7, 9): canvas and sprite
present, valid, width 7, height 9. -/
def imgEx : ImageState :=
  { hasCanvas := true, hasSprite := true, m_valid := true, m_width := 7, m_height := 9 }

/-- Load environment whose decoded buffer is a well-formed 24-byte PNG
header (IHDR width 13, height 21) but whose sprite creation fails. -/
def envEx : LoadEnv :=
  { decodedLen := 24
    bytes := [0x89, 0x50, 0x4E, 0x47, 13, 10, 26, 10,
              0, 0, 0, 13, 0x49, 0x48, 0x44, 0x52,
              0, 0, 0, 13, 0, 0, 0, 21]
    spriteOk := false
    drawOk := false }

/-! ### SimpleGUI checkbox (src/M5Siv3D/SimpleGUI.h)

Drawing calls mutate only the canvas; the value logic of CheckBox
depends on the enabled flag and the released() predicate of the
checkbox region, both modelled here.  The ambient Input::Touch
singleton is passed explicitly. -/

/-- Constant Style::DefaultHeight (SimpleGUI.h line 20). -/
def DefaultHeight : Int := 24

/-- Function SimpleGUI::CheckBoxRegion (SimpleGUI.h lines 218-221). -/
def CheckBoxRegion (pos : Vec2i) : Rect :=
  { m_x := pos.x, m_y := pos.y, m_width := DefaultHeight, m_height := DefaultHeight }

/-- Function SimpleGUI::CheckBox (SimpleGUI.h lines 224-285), value
logic: returns the new value of the bound checked flag and the bool
result (the changed flag). -/
def CheckBox (checked : Bool) (pos : Vec2i) (enabled : Bool) (t : TouchInput) :
    Bool × Bool :=
  let box := CheckBoxRegion pos
  if enabled then
    if box.released t then (!checked, true) else (checked, false)
  else (checked, false)

/-! ### Theorems -/

/-! Helper lemmas for the RGB565 round trip, each a small finite check
or a mask identity. -/

set_option maxRecDepth 2000 in
theorem and_f8_of_lt : ∀ y < 256, y &&& 0xF8 = y / 8 * 8 := by decide

set_option maxRecDepth 2000 in
theorem and_fc_of_lt : ∀ y < 256, y &&& 0xFC = y / 4 * 4 := by decide

theorem red_channel_mask : ∀ a < 32, (a * 8 ||| (a * 8) >>> 5) &&& 0xF8 = a * 8 := by
  decide

theorem green_channel_mask : ∀ b < 64, (b * 4 ||| (b * 4) >>> 6) &&& 0xFC = b * 4 := by
  decide

theorem blue_channel_mask : ∀ c < 32, (c * 8 ||| (c * 8) >>> 5) >>> 3 = c := by
  decide

theorem and_byte_mask (x m : Nat) (hm : m &&& 0xFF = m) : x &&& m = (x % 256) &&& m := by
  have h1 : x &&& m = x &&& (0xFF &&& m) := by rw [Nat.and_comm 0xFF m, hm]
  rw [h1, ← Nat.and_assoc]
  have h2 : x &&& 0xFF = x % 256 := Nat.and_pow_two_sub_one_eq_mod x 8
  rw [h2]

/-- C7: converting any 16-bit value v from RGB565 to RGB888 via the
Color(uint16_t) constructor and back via toRGB565 reproduces the
original bit pattern exactly. -/
theorem rgb565_roundtrip_exact (v : Nat) (h : v < 65536) :
    (colorOfRGB565 v).toRGB565 = v := by
  unfold colorOfRGB565 Color.toRGB565
  simp only
  rw [Nat.shiftRight_eq_div_pow v 8, Nat.shiftRight_eq_div_pow v 3, Nat.shiftLeft_eq v 3]
  have hv256 : v / 2 ^ 8 < 256 := by omega
  have hr0 : v / 2 ^ 8 &&& 0xF8 = v / 2048 * 8 := by
    rw [and_f8_of_lt (v / 2 ^ 8) hv256]
    omega
  have hg0 : v / 2 ^ 3 &&& 0xFC = v / 32 % 64 * 4 := by
    rw [and_byte_mask (v / 2 ^ 3) 0xFC (by decide),
        and_fc_of_lt (v / 2 ^ 3 % 256) (by omega)]
    omega
  have hb0 : v * 2 ^ 3 &&& 0xF8 = v % 32 * 8 := by
    rw [and_byte_mask (v * 2 ^ 3) 0xF8 (by decide),
        and_f8_of_lt (v * 2 ^ 3 % 256) (by omega)]
    omega
  rw [hr0, hg0, hb0]
  rw [red_channel_mask (v / 2048) (by omega),
      green_channel_mask (v / 32 % 64) (by omega),
      blue_channel_mask (v % 32) (by omega)]
  rw [Nat.shiftLeft_eq, Nat.shiftLeft_eq]
  have e1 : v / 2048 * 8 * 2 ^ 8 = 2 ^ 11 * (v / 2048) := by ring
  have e2 : v / 32 % 64 * 4 * 2 ^ 3 = v / 32 % 64 * 32 := by ring
  rw [e1, e2]
  rw [← Nat.mul_add_lt_is_or (by omega : v / 32 % 64 * 32 < 2 ^ 11) (v / 2048)]
  have e3 : 2 ^ 11 * (v / 2048) + v / 32 % 64 * 32 = 2 ^ 5 * (v / 2048 * 64 + v / 32 % 64) := by
    ring
  rw [e3, ← Nat.mul_add_lt_is_or (by omega : v % 32 < 2 ^ 5)]
  omega

/-- Witness for C7 at the concrete value 0xABCD. -/
theorem rgb565_roundtrip_exact_witness :
    (colorOfRGB565 0xABCD).toRGB565 = 0xABCD :=
  rgb565_roundtrip_exact 0xABCD (by decide)

/-- C3: for every pair of retained touch generations, down() and up()
are the stated edge predicates, and the four (previous.pressed,
current.pressed) combinations give the stated truth table. -/
theorem touch_edge_semantics (t : TouchInput) :
    (t.down = (t.current.pressed && !t.previous.pressed)) ∧
    (t.up = (!t.current.pressed && t.previous.pressed)) ∧
    (t.previous.pressed = false → t.current.pressed = false →
      t.down = false ∧ t.up = false) ∧
    (t.previous.pressed = true → t.current.pressed = true →
      t.down = false ∧ t.up = false) ∧
    (t.previous.pressed = false → t.current.pressed = true → t.down = true) ∧
    (t.previous.pressed = true → t.current.pressed = false → t.up = true) := by
  unfold TouchInput.down TouchInput.up
  cases hc : t.current.pressed <;> cases hp : t.previous.pressed <;> simp [hc, hp]

/-- Witness for C3 at a concrete touch generation pair. -/
theorem touch_edge_semantics_witness :
    (TouchInput.down { current := { x := 1, y := 2, pressed := true },
                       previous := TouchState.init } = true) := by
  have h := touch_edge_semantics
    { current := { x := 1, y := 2, pressed := true }, previous := TouchState.init }
  exact h.2.2.2.2.1 rfl rfl

/-- C4: every touch refresh first assigns previous := current (exactly
once, whatever the hardware reports); with the hardware disabled the
current generation retains its last latched value, the pressed level is
preserved (so it stays false if it was false), and after one disabled
refresh previous = current, making down() and up() both false. -/
theorem touch_update_previous_latch (t : TouchInput) (hw : Option TouchState) :
    ((t.update hw).previous = t.current) ∧
    ((t.update none).current = t.current) ∧
    ((t.update none).pressed = t.pressed) ∧
    (t.pressed = false → (t.update none).pressed = false) ∧
    ((t.update none).previous = (t.update none).current) ∧
    ((t.update none).down = false ∧ (t.update none).up = false) := by
  unfold TouchInput.update TouchInput.pressed TouchInput.down TouchInput.up
  cases hc : t.current.pressed <;> simp [hc]

/-- Witness for C4 at a concrete state and an enabled hardware sample. -/
theorem touch_update_previous_latch_witness :
    ((TouchInput.init.update (some { x := 5, y := 5, pressed := true })).previous
      = TouchInput.init.current) ∧
    ((TouchInput.init.update none).down = false ∧
     (TouchInput.init.update none).up = false) := by
  have h := touch_update_previous_latch TouchInput.init
    (some { x := 5, y := 5, pressed := true })
  exact ⟨h.1, h.2.2.2.2.2⟩

/-- C5: for every Circle, Rect and Triangle and every touch snapshot,
touchOver() = contains(touchPos), touched() = down-edge AND
contains(touchPos), released() = up-edge AND contains(touchPos) at the
current (release-moment) position, and pressed() = level-pressed AND
contains(touchPos); with the touch sequence [(pressed=false),
(pressed=true,5,5), (pressed=true,5,5)] against Circle((5,5),10),
touched() holds only after the 2nd refresh, pressed() after the 2nd and
3rd, and released() never. -/
theorem shape_touch_predicates :
    (∀ (c : Circle) (t : TouchInput),
      c.touchOver t = c.contains t.pos ∧
      c.touched t = (t.down && c.contains t.pos) ∧
      c.released t = (t.up && c.contains t.pos) ∧
      c.pressed t = (t.pressed && c.contains t.pos)) ∧
    (∀ (r : Rect) (t : TouchInput),
      r.touchOver t = r.contains t.pos ∧
      r.touched t = (t.down && r.contains t.pos) ∧
      r.released t = (t.up && r.contains t.pos) ∧
      r.pressed t = (t.pressed && r.contains t.pos)) ∧
    (∀ (tr : Triangle) (t : TouchInput),
      tr.touchOver t = tr.contains t.pos ∧
      tr.touched t = (t.down && tr.contains t.pos) ∧
      tr.released t = (t.up && tr.contains t.pos) ∧
      tr.pressed t = (t.pressed && tr.contains t.pos)) ∧
    (let c : Circle := { m_x := 5, m_y := 5, m_r := 10 }
     c.touched scenarioTouch1 = false ∧
     c.touched scenarioTouch2 = true ∧
     c.touched scenarioTouch3 = false ∧
     c.pressed scenarioTouch1 = false ∧
     c.pressed scenarioTouch2 = true ∧
     c.pressed scenarioTouch3 = true ∧
     c.released scenarioTouch1 = false ∧
     c.released scenarioTouch2 = false ∧
     c.released scenarioTouch3 = false) ∧
    (let c : Circle := { m_x := 5, m_y := 5, m_r := 10 }
     c.contains { x := 100, y := 100 } = false ∧
     c.touched dragTouch1 = false ∧
     c.released dragTouch3 = true) := by
  refine ⟨fun c t => ⟨rfl, rfl, rfl, rfl⟩,
          fun r t => ⟨rfl, rfl, rfl, rfl⟩,
          fun tr t => ⟨rfl, rfl, rfl, rfl⟩, ?_, ?_⟩ <;> decide

set_option linter.unnecessarySeqFocus false in
/-- C6: Rect containment is half-open (the left/top edges are inside, a
point at x = rect.x + rect.width or y = rect.y + rect.height is
outside), and Circle containment is inclusive at exact distance =
radius. -/
theorem containment_boundary_semantics :
    (∀ (r : Rect) (py : Int), 0 < r.m_width →
      r.m_y ≤ py → py < r.m_y + r.m_height →
      r.contains { x := r.m_x, y := py } = true ∧
      r.contains { x := r.m_x + r.m_width, y := py } = false) ∧
    (∀ (r : Rect) (px : Int), 0 < r.m_height →
      r.m_x ≤ px → px < r.m_x + r.m_width →
      r.contains { x := px, y := r.m_y } = true ∧
      r.contains { x := px, y := r.m_y + r.m_height } = false) ∧
    (∀ (c : Circle) (p : Vec2i),
      (p.x - c.m_x) * (p.x - c.m_x) + (p.y - c.m_y) * (p.y - c.m_y) = c.m_r * c.m_r →
      c.contains p = true) := by
  refine ⟨?_, ?_, ?_⟩
  · intro r py hw hy1 hy2
    constructor <;> simp [Rect.contains] <;> omega
  · intro r px hh hx1 hx2
    constructor <;> simp [Rect.contains] <;> omega
  · intro c p h
    simp [Circle.contains]
    omega

/-- Witness for C6 at Rect(0,0,4,4) and Circle((0,0),5) with the
boundary point (3,4). -/
theorem containment_boundary_semantics_witness :
    (Rect.contains { m_x := 0, m_y := 0, m_width := 4, m_height := 4 }
      { x := 0, y := 2 } = true ∧
     Rect.contains { m_x := 0, m_y := 0, m_width := 4, m_height := 4 }
      { x := 4, y := 2 } = false) ∧
    Circle.contains { m_x := 0, m_y := 0, m_r := 5 } { x := 3, y := 4 } = true := by
  have h := containment_boundary_semantics
  exact ⟨h.1 { m_x := 0, m_y := 0, m_width := 4, m_height := 4 } 2
          (by decide) (by decide) (by decide),
         h.2.2 { m_x := 0, m_y := 0, m_r := 5 } { x := 3, y := 4 } (by decide)⟩

theorem systemUpdate_commit (s : SysState) (t1 t2 t3 : Nat)
    (h : FRAME_INTERVAL ≤ sub32 t1 s.lastDrawTime) :
    systemUpdate s t1 t2 t3 =
      ({ updateTime s t2 with lastDrawTime := t1 % 2 ^ 32 },
       [Event.blit, Event.timing] ++
         (if 0 < toInt32 (sub32 FRAME_INTERVAL (sub32 t3 t1)) then
            [Event.sleep (toInt32 (sub32 FRAME_INTERVAL (sub32 t3 t1)))]
          else []) ++
         [Event.refresh, Event.clear s.backgroundColor.toRGB565],
       true) := by
  unfold systemUpdate
  rw [if_pos h]

theorem systemUpdate_skip (s : SysState) (t1 t2 t3 : Nat)
    (h : sub32 t1 s.lastDrawTime < FRAME_INTERVAL) :
    systemUpdate s t1 t2 t3 = (s, [], true) := by
  unfold systemUpdate
  rw [if_neg (by omega)]

/-- C1: whenever elapsed time since the last committed tick reaches the
16 ms interval, update() performs — in this strict order — blit, timing
update (deltaTime = (now - previousTime)/1000, EMA with factors
0.9/0.1, frame count + 1), a sleep of the remaining slack only when the
slack is positive, exactly one input refresh, and a clear to the
current background color; below the interval it changes no state and
emits no effect; and it returns true in every case. -/
theorem system_update_contract (s : SysState) (t1 t2 t3 : Nat) :
    ((systemUpdate s t1 t2 t3).2.2 = true) ∧
    (FRAME_INTERVAL ≤ sub32 t1 s.lastDrawTime →
      (let r := systemUpdate s t1 t2 t3
       let remaining := toInt32 (sub32 FRAME_INTERVAL (sub32 t3 t1))
       (0 < remaining →
         r.2.1 = [Event.blit, Event.timing, Event.sleep remaining,
                  Event.refresh, Event.clear s.backgroundColor.toRGB565]) ∧
       (remaining ≤ 0 →
         r.2.1 = [Event.blit, Event.timing,
                  Event.refresh, Event.clear s.backgroundColor.toRGB565]) ∧
       r.1.m_deltaTime = (sub32 t2 s.m_previousTime : ℚ) / 1000 ∧
       r.1.m_averageFrameTime
         = s.m_averageFrameTime * (9 / 10) + (sub32 t2 s.m_previousTime : ℚ) * (1 / 10) ∧
       r.1.m_frameCount = (s.m_frameCount + 1) % 2 ^ 64 ∧
       (s.m_frameCount + 1 < 2 ^ 64 → r.1.m_frameCount = s.m_frameCount + 1))) ∧
    (sub32 t1 s.lastDrawTime < FRAME_INTERVAL →
      systemUpdate s t1 t2 t3 = (s, [], true)) := by
  refine ⟨?_, ?_, ?_⟩
  · by_cases h : FRAME_INTERVAL ≤ sub32 t1 s.lastDrawTime
    · rw [systemUpdate_commit s t1 t2 t3 h]
    · rw [systemUpdate_skip s t1 t2 t3 (by omega)]
  · intro h
    rw [systemUpdate_commit s t1 t2 t3 h]
    refine ⟨?_, ?_, rfl, rfl, rfl, ?_⟩
    · intro hrem
      rw [if_pos hrem]
      rfl
    · intro hrem
      rw [if_neg (by omega)]
      rfl
    · intro hlt
      exact Nat.mod_eq_of_lt hlt
  · intro h
    exact systemUpdate_skip s t1 t2 t3 h

/-- Witness for C1 at a concrete state and clock readings. -/
theorem system_update_contract_witness :
    (let s0 : SysState :=
      { lastDrawTime := 0, backgroundColor := { r := 0, g := 0, b := 0 },
        m_deltaTime := 0, m_averageFrameTime := 16,
        m_frameCount := 0, m_previousTime := 0 }
     (systemUpdate s0 20 21 22).2.2 = true ∧
     (systemUpdate s0 20 21 22).2.1
       = [Event.blit, Event.timing, Event.sleep 14, Event.refresh, Event.clear 0] ∧
     (systemUpdate s0 5 5 5).2.1 = []) := by
  have h20 := system_update_contract
    { lastDrawTime := 0, backgroundColor := { r := 0, g := 0, b := 0 },
      m_deltaTime := 0, m_averageFrameTime := 16,
      m_frameCount := 0, m_previousTime := 0 } 20 21 22
  have h5 := system_update_contract
    { lastDrawTime := 0, backgroundColor := { r := 0, g := 0, b := 0 },
      m_deltaTime := 0, m_averageFrameTime := 16,
      m_frameCount := 0, m_previousTime := 0 } 5 5 5
  refine ⟨h20.1, ?_, ?_⟩
  · have h1 := (h20.2.1 (by decide)).1 (by decide)
    simpa using h1
  · have h2 := h5.2.2 (by decide)
    simp [h2]

theorem altScan_append (b : Bool) (l1 l2 : List Event) :
    altScan b (l1 ++ l2) = (altScan b l1).bind fun b2 => altScan b2 l2 := by
  induction l1 generalizing b with
  | nil => simp [altScan]
  | cons e rest ih =>
    simp only [List.cons_append, altScan]
    by_cases hr : isRefresh e <;> by_cases hc : isClear e <;> by_cases hb : b <;>
      simp [hr, hc, hb, ih]

theorem systemUpdate_trace_altScan (s : SysState) (t1 t2 t3 : Nat) :
    altScan false (systemUpdate s t1 t2 t3).2.1 = some false := by
  by_cases h : FRAME_INTERVAL ≤ sub32 t1 s.lastDrawTime
  · rw [systemUpdate_commit s t1 t2 t3 h]
    show altScan false
      ([Event.blit, Event.timing] ++
        (if 0 < toInt32 (sub32 FRAME_INTERVAL (sub32 t3 t1)) then
           [Event.sleep (toInt32 (sub32 FRAME_INTERVAL (sub32 t3 t1)))]
         else []) ++
        [Event.refresh, Event.clear s.backgroundColor.toRGB565]) = some false
    by_cases hrem : 0 < toInt32 (sub32 FRAME_INTERVAL (sub32 t3 t1))
    · rw [if_pos hrem]
      rfl
    · rw [if_neg hrem]
      rfl
  · rw [systemUpdate_skip s t1 t2 t3 (by omega)]
    rfl

theorem systemUpdate_trace_refreshes (s : SysState) (t1 t2 t3 : Nat) :
    refreshesIn (systemUpdate s t1 t2 t3).2.1
      = if FRAME_INTERVAL ≤ sub32 t1 s.lastDrawTime then 1 else 0 := by
  by_cases h : FRAME_INTERVAL ≤ sub32 t1 s.lastDrawTime
  · rw [systemUpdate_commit s t1 t2 t3 h, if_pos h]
    show refreshesIn
      ([Event.blit, Event.timing] ++
        (if 0 < toInt32 (sub32 FRAME_INTERVAL (sub32 t3 t1)) then
           [Event.sleep (toInt32 (sub32 FRAME_INTERVAL (sub32 t3 t1)))]
         else []) ++
        [Event.refresh, Event.clear s.backgroundColor.toRGB565]) = 1
    by_cases hrem : 0 < toInt32 (sub32 FRAME_INTERVAL (sub32 t3 t1))
    · rw [if_pos hrem]
      rfl
    · rw [if_neg hrem]
      rfl
  · rw [systemUpdate_skip s t1 t2 t3 (by omega), if_neg h]
    rfl

theorem runTicks_altScan (s : SysState) (ts : List (Nat × Nat × Nat)) :
    altScan false ((runTicks s ts).2.flatten) = some false := by
  induction ts generalizing s with
  | nil => rfl
  | cons t rest ih =>
    show altScan false
      ((systemUpdate s t.1 t.2.1 t.2.2).2.1 ++
        (runTicks (systemUpdate s t.1 t.2.1 t.2.2).1 rest).2.flatten) = some false
    rw [altScan_append, systemUpdate_trace_altScan]
    simpa using ih (systemUpdate s t.1 t.2.1 t.2.2).1

/-- C2: the refresh happens at most once between two consecutive
canvas-clear events (refreshes and clears strictly alternate in every
run, expressed by the altScan invariant over the concatenated event
trace) and exactly once per call with elapsed ≥ frameInterval; with
tick() invoked at 5 ms spacing for 4 calls starting from a committed
tick, exactly one committed frame (blit + refresh) occurs, at the
first call where elapsed ≥ 16 (the 4th, elapsed = 20). -/
theorem refresh_once_per_committed_tick :
    (∀ (s : SysState) (t1 t2 t3 : Nat),
      refreshesIn (systemUpdate s t1 t2 t3).2.1
        = if FRAME_INTERVAL ≤ sub32 t1 s.lastDrawTime then 1 else 0) ∧
    (∀ (s : SysState) (ts : List (Nat × Nat × Nat)),
      altScan false ((runTicks s ts).2.flatten) = some false) ∧
    ((runTicks scenarioSys [(5, 5, 5), (10, 10, 10), (15, 15, 15), (20, 20, 20)]).2
       = [[], [], [],
          [Event.blit, Event.timing, Event.sleep 16, Event.refresh, Event.clear 0]] ∧
     (runTicks scenarioSys [(5, 5, 5), (10, 10, 10), (15, 15, 15), (20, 20, 20)]).2.map
        refreshesIn = [0, 0, 0, 1] ∧
     sub32 5 scenarioSys.lastDrawTime < FRAME_INTERVAL ∧
     sub32 10 scenarioSys.lastDrawTime < FRAME_INTERVAL ∧
     sub32 15 scenarioSys.lastDrawTime < FRAME_INTERVAL ∧
     FRAME_INTERVAL ≤ sub32 20 scenarioSys.lastDrawTime) := by
  refine ⟨systemUpdate_trace_refreshes, runTicks_altScan, ?_, ?_, ?_, ?_, ?_, ?_⟩ <;>
    decide

/-- C8: per axis, the new angle equals
alpha * (currentAngle + gyroRate * gyroScale * deltaTime) +
(1 - alpha) * accelAngle; with alpha = 1 the accelerometer term is
ignored (pure gyro integration), with alpha = 0 the gyro term is
ignored (the new angle is the accelerometer-derived angle). -/
theorem attitude_complementary_filter (cur accelAngles : EulerAngles) (gyro : Vec3q)
    (deltaTime alpha gyroScale : ℚ) :
    (let r := updateAttitude cur accelAngles gyro deltaTime alpha gyroScale
     (r.roll = alpha * (cur.roll + gyro.x * gyroScale * deltaTime)
                 + (1 - alpha) * accelAngles.roll ∧
      r.pitch = alpha * (cur.pitch + gyro.y * gyroScale * deltaTime)
                 + (1 - alpha) * accelAngles.pitch ∧
      r.yaw = alpha * (cur.yaw + gyro.z * gyroScale * deltaTime)
                 + (1 - alpha) * accelAngles.yaw) ∧
     (alpha = 1 →
       r.roll = cur.roll + gyro.x * gyroScale * deltaTime ∧
       r.pitch = cur.pitch + gyro.y * gyroScale * deltaTime ∧
       r.yaw = cur.yaw + gyro.z * gyroScale * deltaTime) ∧
     (alpha = 0 →
       r.roll = accelAngles.roll ∧
       r.pitch = accelAngles.pitch ∧
       r.yaw = accelAngles.yaw)) := by
  refine ⟨⟨rfl, rfl, rfl⟩, ?_, ?_⟩
  · intro h1
    subst h1
    unfold updateAttitude complementaryFilter
    refine ⟨?_, ?_, ?_⟩ <;> ring
  · intro h0
    subst h0
    unfold updateAttitude complementaryFilter
    refine ⟨?_, ?_, ?_⟩ <;> ring

/-- Witness for C8 at concrete rational inputs with alpha = 1. -/
theorem attitude_complementary_filter_witness :
    (updateAttitude { roll := 1, pitch := 2, yaw := 3 }
      { roll := 4, pitch := 5, yaw := 6 }
      { x := 7, y := 8, z := 9 } (1 / 2) 1 2).roll = 8 := by
  have h := attitude_complementary_filter { roll := 1, pitch := 2, yaw := 3 }
    { roll := 4, pitch := 5, yaw := 6 } { x := 7, y := 8, z := 9 } (1 / 2) 1 2
  rw [(h.2.1 rfl).1]
  norm_num

/-- Counterexample to C9: a sprite-creation failure returns false and
leaves the object empty, but m_width (observable through width()) has
been overwritten with the header-parsed value 13, so the failed call
does change an observable field. -/
theorem image_load_counterexample :
    (loadBase64 imgEx envEx).2 = false ∧
    (loadBase64 imgEx envEx).1.isEmpty = true ∧
    imgEx.m_width = 7 ∧
    (loadBase64 imgEx envEx).1.m_width = 13 := by
  decide

set_option linter.unreachableTactic false in
set_option linter.unnecessarySeqFocus false in
set_option linter.unusedTactic false in
/-- C9 (amended): every failing loadBase64 call returns false and
leaves the object empty (isEmpty() true, m_valid false, the prior
sprite deleted); failures up to the PNG-signature check leave every
other observable field unchanged, while sprite-creation and PNG-draw
failures (which occur after the header parse) leave the header-parsed
width/height in the object. -/
theorem image_load_failure_reverts_empty (s : ImageState) (env : LoadEnv) :
    ((loadBase64 s env).2 = false → (loadBase64 s env).1.isEmpty = true) ∧
    (s.hasCanvas = true → (loadBase64 s env).2 = false →
      (loadBase64 s env).1.m_valid = false) ∧
    (s.hasCanvas = true →
      (env.decodedLen = 0 ∨ env.bytes.length = 0 ∨ env.bytes.length < 24 ∨
       byteAt env.bytes 0 ≠ 0x89 ∨ byteAt env.bytes 1 ≠ 0x50 ∨
       byteAt env.bytes 2 ≠ 0x4E ∨ byteAt env.bytes 3 ≠ 0x47) →
      loadBase64 s env = ({ s with hasSprite := false, m_valid := false }, false)) ∧
    (s.hasCanvas = true → env.decodedLen ≠ 0 → env.bytes.length ≠ 0 →
      24 ≤ env.bytes.length → byteAt env.bytes 0 = 0x89 → byteAt env.bytes 1 = 0x50 →
      byteAt env.bytes 2 = 0x4E → byteAt env.bytes 3 = 0x47 → env.spriteOk = false →
      loadBase64 s env =
        ({ s with hasSprite := false, m_valid := false,
                  m_width := pngField env.bytes 16,
                  m_height := pngField env.bytes 20 }, false)) ∧
    (s.hasCanvas = true → env.decodedLen ≠ 0 → env.bytes.length ≠ 0 →
      24 ≤ env.bytes.length → byteAt env.bytes 0 = 0x89 → byteAt env.bytes 1 = 0x50 →
      byteAt env.bytes 2 = 0x4E → byteAt env.bytes 3 = 0x47 → env.spriteOk = true →
      env.drawOk = false →
      loadBase64 s env =
        ({ s with hasSprite := true, m_valid := false,
                  m_width := pngField env.bytes 16,
                  m_height := pngField env.bytes 20 }, false)) := by
  refine ⟨?_, ?_, ?_, ?_, ?_⟩
  · intro hfail
    revert hfail
    unfold loadBase64
    split_ifs <;> simp [ImageState.isEmpty] <;> simp_all
  · intro hc hfail
    revert hfail
    unfold loadBase64
    split_ifs <;> simp_all
  · intro hc hbad
    unfold loadBase64
    split_ifs <;> simp_all <;> omega
  · intro hc hd ha hlen h0 h1 h2 h3 hsp
    unfold loadBase64
    split_ifs <;> simp_all <;> omega
  · intro hc hd ha hlen h0 h1 h2 h3 hsp hdr
    unfold loadBase64
    split_ifs <;> simp_all <;> omega

/-- Witness for C9 (amended) at the counterexample input. -/
theorem image_load_failure_reverts_empty_witness :
    loadBase64 imgEx envEx =
      ({ imgEx with hasSprite := false, m_valid := false,
                    m_width := pngField envEx.bytes 16,
                    m_height := pngField envEx.bytes 20 }, false) := by
  have h := image_load_failure_reverts_empty imgEx envEx
  exact h.2.2.2.1 rfl (by decide) (by decide) (by decide) (by decide) (by decide)
    (by decide) (by decide) rfl

/-- C10: CheckBox toggles the bound flag iff it returns true, which
happens exactly when enabled holds and the checkbox region's
released() predicate holds; otherwise the flag is left unchanged. -/
theorem checkbox_toggle_iff (checked : Bool) (pos : Vec2i) (enabled : Bool)
    (t : TouchInput) :
    (let r := CheckBox checked pos enabled t
     (r.2 = true ↔ (enabled = true ∧ (CheckBoxRegion pos).released t = true)) ∧
     (r.1 ≠ checked ↔ r.2 = true) ∧
     (r.2 = false → r.1 = checked) ∧
     (r.2 = true → r.1 = !checked)) := by
  unfold CheckBox
  by_cases he : enabled <;> by_cases hr : (CheckBoxRegion pos).released t <;>
    simp [he, hr]

/-- Witness for C10: a release inside the box with the widget enabled
toggles the flag; the same snapshot with the widget disabled does not. -/
theorem checkbox_toggle_iff_witness :
    (CheckBox false { x := 0, y := 0 } true
      { current := { x := 5, y := 5, pressed := false },
        previous := { x := 5, y := 5, pressed := true } }).2 = true ∧
    (CheckBox false { x := 0, y := 0 } true
      { current := { x := 5, y := 5, pressed := false },
        previous := { x := 5, y := 5, pressed := true } }).1 = true ∧
    (CheckBox false { x := 0, y := 0 } false
      { current := { x := 5, y := 5, pressed := false },
        previous := { x := 5, y := 5, pressed := true } }).1 = false := by
  have h := checkbox_toggle_iff false { x := 0, y := 0 } true
    { current := { x := 5, y := 5, pressed := false },
      previous := { x := 5, y := 5, pressed := true } }
  have hd := checkbox_toggle_iff false { x := 0, y := 0 } false
    { current := { x := 5, y := 5, pressed := false },
      previous := { x := 5, y := 5, pressed := true } }
  have h2 := h.1.mpr ⟨rfl, by decide⟩
  refine ⟨h2, h.2.2.2 h2, hd.2.2.1 ?_⟩
  decide

end M5Siv3D
